import Mathlib

/-!
Shallow embedding of `src/python/sift.py`: the SIFT correspondence-search
core (descriptor extraction, ratio-test matching, robust filtering, and the
adaptive sensitivity-backoff retry loop).

The Python module shells out to four external programs via `common.run`
(which raises on a failing subprocess): `sift_roi` (the detector),
`match_cli` (the ratio-test matcher), `ransac` (the robust estimator) and
the projective mapper `rpc_utils.corresponding_roi`.  We model the
semantics of those boundaries as an explicit environment of fallible
functions, and each of the three Python functions of the module as a pure
function of that environment returning both its result and the trace of
external commands it issued, in order.  Command traces record exactly the
parameters the Python code interpolates into the command strings.
-/

/-- A SIFT descriptor: a fixed-length vector of numeric components
(128-dimensional in practice; the length is immaterial here). -/
abbrev Desc := List ℚ

/-- A keypoint record produced by the detector: position in full-image pixel
coordinates, scale, orientation angle, and descriptor. -/
structure Keypoint where
  x : ℚ
  y : ℚ
  scale : ℚ
  orient : ℚ
  desc : Desc
deriving DecidableEq

/-- One candidate match: a pair of keypoint positions, ordered x1 y1 x2 y2,
as one row of a match file. -/
structure MatchPair where
  x1 : ℚ
  y1 : ℚ
  x2 : ℚ
  y2 : ℚ
deriving DecidableEq

/-- A Python `str` object: `val` is its character content and `addr` its
object identity (`id()`).  Python `==` compares `val`; Python `is` compares
`addr`.  String literals occurring in source text are interned by CPython,
so every source occurrence of one literal shares a single `addr`, while a
string built at run time (for example by joining two halves) receives a
fresh `addr` even when its `val` equals the content of a literal. -/
structure PyStr where
  val : String
  addr : ℕ
deriving DecidableEq

/-- The interned literal written as a quoted fundamental string on line 66. -/
def litFundamental : PyStr := PyStr.mk "fundamental" 0

/-- The interned literal written as a quoted homography string on line 68. -/
def litHomography : PyStr := PyStr.mk "homography" 1

/-- The interned literal written as a quoted hom_fund string on line 71. -/
def litHomFund : PyStr := PyStr.mk "hom_fund" 2

/-- A run-time string whose content equals the homography literal but which
is a distinct object, as produced for example by concatenating two halves
of the word at run time; Python `is` distinguishes it from the literal. -/
def strHomographyRuntime : PyStr := PyStr.mk "homography" 99

/-- Python `==` between an optional str and a literal: value equality
(`None == s` is False). -/
def pyEq (m : Option PyStr) (s : String) : Bool :=
  match m with
  | none => false
  | some t => t.val == s

/-- Python `is` between an optional str and an interned literal: object
identity (`None is s` is False for a str literal). -/
def pyIs (m : Option PyStr) (lit : PyStr) : Bool :=
  match m with
  | none => false
  | some t => t.addr == lit.addr

/-- A numpy array as returned by `np.loadtxt` (without ndmin): either 1-D
or 2-D. -/
inductive NpArr where
  | oneD (entries : List ℚ)
  | twoD (rows : List (List ℚ))
deriving DecidableEq

/-- The row of a match file holding one match. -/
def matchRow (m : MatchPair) : List ℚ :=
  [m.x1, m.y1, m.x2, m.y2]

/-- `np.loadtxt` on a whitespace-separated table of matches (line 77):
numpy squeezes the result, so a file of two or more rows yields a 2-D
array, a file of exactly one row yields the 1-D array of that row, and an
empty file yields an empty 1-D array (with a warning). -/
def loadtxt (rows : List MatchPair) : NpArr :=
  match rows with
  | [] => NpArr.oneD []
  | [m] => NpArr.oneD (matchRow m)
  | _ => NpArr.twoD (rows.map matchRow)

/-- `a.shape[0]` of a numpy array. -/
def NpArr.shape0 : NpArr → ℕ
  | NpArr.oneD es => es.length
  | NpArr.twoD rs => rs.length

/-- `a.ndim` of a numpy array. -/
def NpArr.ndim : NpArr → ℕ
  | NpArr.oneD _ => 1
  | NpArr.twoD _ => 2

/-- The list of rows of a numpy array (a 1-D array is one row when
non-empty, no rows when empty). -/
def NpArr.rows : NpArr → List (List ℚ)
  | NpArr.oneD [] => []
  | NpArr.oneD es => [es]
  | NpArr.twoD rs => rs

/-- A fatal error raised by a boundary call: an extraction failure of the
detector, a projector failure, or any other failing subprocess.  Errors
are opaque tokens; the code under test never constructs or inspects them,
it can only let them propagate. -/
inductive Err where
  | extractionFailed (code : ℕ)
  | noOverlap (code : ℕ)
  | runFailed (code : ℕ)
deriving DecidableEq

/-- One external command issued by the module, with the parameters the
Python code interpolates into the command string. -/
inductive Cmd where
  | correspondingRoi (x y w h : ℤ)
  | siftRoi (im : String) (x y w h : ℤ) (maxNb : Option ℕ) (threshDog : ℚ)
  | matchCli (method : String) (thresh : ℚ)
  | ransac (kind : String) (iters : ℕ) (thresh : ℚ) (sample : ℕ)
deriving DecidableEq

/-- Whether a command is a detector invocation. -/
def Cmd.isSift : Cmd → Bool
  | Cmd.siftRoi _ _ _ _ _ _ _ => true
  | _ => false

/-- Whether a command is a projective-mapper invocation. -/
def Cmd.isCorr : Cmd → Bool
  | Cmd.correspondingRoi _ _ _ _ => true
  | _ => false

/-- Whether a command is a robust-estimator invocation. -/
def Cmd.isRansac : Cmd → Bool
  | Cmd.ransac _ _ _ _ => true
  | _ => false

/-- The detection-sensitivity parameter of a detector invocation. -/
def Cmd.threshOf : Cmd → Option ℚ
  | Cmd.siftRoi _ _ _ _ _ _ t => some t
  | _ => none

/-- The detector invocations of a trace, in order. -/
def siftCmds (tr : List Cmd) : List Cmd :=
  tr.filter Cmd.isSift

/-- The sensitivity parameters of the detector invocations of a trace, in
order. -/
def siftThreshes (tr : List Cmd) : List ℚ :=
  (siftCmds tr).filterMap Cmd.threshOf

/-- An opaque token standing for an `rpc_model.RPCModel` instance. -/
abbrev Rpc := ℕ

/-- The environment of the module: the semantics of the four external
boundaries and the global configuration value `cfg` with key
sift_match_thresh.  Each boundary call either succeeds with a value or
raises (`Except.error`), modelling that `common.run` raises when the
subprocess fails. -/
structure Env where
  correspondingRoi : Rpc → Rpc → ℤ → ℤ → ℤ → ℤ → Except Err (ℤ × ℤ × ℤ × ℤ)
  siftRoi : String → ℤ → ℤ → ℤ → ℤ → Option ℕ → ℚ → Except Err (List Keypoint)
  matchCli : List Keypoint → List Keypoint → String → ℚ → Except Err (List MatchPair)
  ransac : String → ℕ → ℚ → ℕ → List MatchPair → Except Err (List MatchPair)
  sift_match_thresh : ℚ

/-- Lines 9-36: `image_keypoints` runs one `sift_roi` command on a region
of an image and returns the detected keypoints (as the content of the
keyfile).  The only caller passes `extra_params` as the thresh-dog option
applied to the current sensitivity, so we model the parameter by that
rational payload, forwarded opaquely to the detector. -/
def image_keypoints (env : Env) (im : String) (x y w h : ℤ)
    (max_nb : Option ℕ) (extra_params : ℚ) :
    Except Err (List Keypoint) × List Cmd :=
  (env.siftRoi im x y w h max_nb extra_params,
   [Cmd.siftRoi im x y w h max_nb extra_params])

/-- Sequencing of two traced fallible steps on a match file: if the first
step raised, its error and trace stand; otherwise the second step runs on
the first result and the traces concatenate. -/
def andThen (s : Except Err (List MatchPair) × List Cmd)
    (f : List MatchPair → Except Err (List MatchPair) × List Cmd) :
    Except Err (List MatchPair) × List Cmd :=
  match s with
  | (Except.error e, tr) => (Except.error e, tr)
  | (Except.ok m, tr) => ((f m).1, tr ++ (f m).2)

/-- One `ransac` command applied to the current match file. -/
def ransacPass (env : Env) (kind : String) (iters : ℕ) (th : ℚ) (sample : ℕ)
    (m : List MatchPair) : Except Err (List MatchPair) × List Cmd :=
  (env.ransac kind iters th sample m, [Cmd.ransac kind iters th sample])

/-- Lines 65-74 of `keypoints_match`: the ransac filtering section.  Three
successive conditionals rewrite the match file in place: line 66 compares
`model` to the fundamental literal with `==` (value equality) and runs
`ransac fmn 1000 .3 7`; line 68 compares to the homography literal with
`is` (object identity) and runs `ransac hom 1000 1 4`; line 71 compares to
the hom_fund literal with `is` and runs `ransac hom 1000 2 4` followed by
`ransac fmn 1000 .2 7`. -/
def ransacFilter (env : Env) (model : Option PyStr) (m0 : List MatchPair) :
    Except Err (List MatchPair) × List Cmd :=
  andThen
    (andThen
      (andThen (Except.ok m0, [])
        (fun m =>
          if pyEq model "fundamental" then ransacPass env "fmn" 1000 (3/10) 7 m
          else (Except.ok m, [])))
      (fun m =>
        if pyIs model litHomography then ransacPass env "hom" 1000 1 4 m
        else (Except.ok m, [])))
    (fun m =>
      if pyIs model litHomFund then
        andThen (ransacPass env "hom" 1000 2 4 m)
          (fun m2 => ransacPass env "fmn" 1000 (2/10) 7 m2)
      else (Except.ok m, []))

/-- Lines 39-77: `keypoints_match` runs one `match_cli` command on the two
keypoint lists, pipes the resulting match file through the ransac section
selected by `model`, and returns `np.loadtxt` of the final file. -/
def keypoints_match (env : Env) (k1 k2 : List Keypoint) (method : String)
    (thresh : ℚ) (model : Option PyStr) : Except Err NpArr × List Cmd :=
  match env.matchCli k1 k2 method thresh with
  | Except.error e => (Except.error e, [Cmd.matchCli method thresh])
  | Except.ok m0 =>
    match ransacFilter env model m0 with
    | (Except.error e, tr) => (Except.error e, Cmd.matchCli method thresh :: tr)
    | (Except.ok m, tr) => (Except.ok (loadtxt m), Cmd.matchCli method thresh :: tr)

/-- The initial sensitivity, the Python literal 0.0133 of line 102.
Halving is exact both for rationals and for the binary floating point of
the source, so the backoff schedule is represented exactly. -/
def threshDogInit : ℚ := 133 / 10000

/-- Lines 103-113: the retry loop of `matches_on_rpc_roi`.  The first
argument of the recursion is the remaining number of iterations (the
Python loop runs `for i in range(6)` so it starts at 6), the second is the
current `thresh_dog`, and the third is the value of the Python variable
`matches` from the previous iteration (returned unchanged when the budget
reaches zero, which models falling off the end of the loop). -/
def searchLoop (env : Env) (im1 im2 : String) (x y w h x2 y2 w2 h2 : ℤ) :
    ℕ → ℚ → NpArr → Except Err NpArr × List Cmd
  | 0, _, last => (Except.ok last, [])
  | n + 1, t, _ =>
    match image_keypoints env im1 x y w h (some 2000) t with
    | (Except.error e, tr1) => (Except.error e, tr1)
    | (Except.ok p1, tr1) =>
      match image_keypoints env im2 x2 y2 w2 h2 (some 2000) t with
      | (Except.error e, tr2) => (Except.error e, tr1 ++ tr2)
      | (Except.ok p2, tr2) =>
        match keypoints_match env p1 p2 "relative" env.sift_match_thresh
            (some litFundamental) with
        | (Except.error e, tr3) => (Except.error e, tr1 ++ tr2 ++ tr3)
        | (Except.ok ms, tr3) =>
          if 10 < ms.shape0 then (Except.ok ms, tr1 ++ tr2 ++ tr3)
          else
            ((searchLoop env im1 im2 x y w h x2 y2 w2 h2 n (t / 2) ms).1,
             tr1 ++ tr2 ++ tr3
               ++ (searchLoop env im1 im2 x y w h x2 y2 w2 h2 n (t / 2) ms).2)

/-- Lines 80-114: `matches_on_rpc_roi` computes the corresponding region
once via the rpc functions, then runs the retry loop with budget 6 and
initial sensitivity `threshDogInit`.  The loop seed `loadtxt []` is never
returned because the budget is positive. -/
def matches_on_rpc_roi (env : Env) (im1 im2 : String) (rpc1 rpc2 : Rpc)
    (x y w h : ℤ) : Except Err NpArr × List Cmd :=
  match env.correspondingRoi rpc1 rpc2 x y w h with
  | Except.error e => (Except.error e, [Cmd.correspondingRoi x y w h])
  | Except.ok (x2, y2, w2, h2) =>
    ((searchLoop env im1 im2 x y w h x2 y2 w2 h2 6 threshDogInit (loadtxt [])).1,
     Cmd.correspondingRoi x y w h
       :: (searchLoop env im1 im2 x y w h x2 y2 w2 h2 6 threshDogInit (loadtxt [])).2)

/-- The full schedule of detector invocations for a backoff run of `n`
iterations starting at sensitivity `t`: two extractions per iteration,
both at the current sensitivity, which is halved between iterations; the
two regions are fixed across all iterations. -/
def backoffSifts (im1 im2 : String) (x y w h x2 y2 w2 h2 : ℤ) :
    ℕ → ℚ → List Cmd
  | 0, _ => []
  | n + 1, t =>
    Cmd.siftRoi im1 x y w h (some 2000) t
      :: Cmd.siftRoi im2 x2 y2 w2 h2 (some 2000) t
      :: backoffSifts im1 im2 x y w h x2 y2 w2 h2 n (t / 2)

/-- `l1` is an initial segment of `l2`. -/
def PrefixOf {α : Type _} (l1 l2 : List α) : Prop :=
  ∃ rest, l2 = l1 ++ rest

/-- Squared Euclidean distance between two descriptors. -/
def sqDist (d1 d2 : Desc) : ℚ :=
  ((d1.zip d2).map (fun p => (p.1 - p.2) ^ 2)).sum

/-- The nearest candidate (with its squared distance) and the squared
distance of the second nearest, over a list of candidates. -/
def best2 (cands : List (Keypoint × ℚ)) : Option (Keypoint × ℚ) × Option ℚ :=
  cands.foldl
    (fun acc c =>
      match acc with
      | (none, _) => (some c, none)
      | (some b, s) =>
        if c.2 < b.2 then (some c, some b.2)
        else
          match s with
          | none => (some b, some c.2)
          | some sd => (some b, some (min sd c.2)))
    (none, none)

/-- Modelled from the spec: the external `match_cli` binary is not under
`src/`, so its per-keypoint acceptance is taken from section 4.2: a
keypoint of set1 matches its nearest neighbour in set2 by descriptor
distance iff, under the relative method, the ratio of nearest to second
nearest distance is within the threshold, and under the absolute method
the nearest distance itself is within the threshold (distances are
compared in squared form; a sole candidate has no second nearest and is
accepted under the relative method). -/
def matchOne (method : String) (thresh : ℚ) (kp : Keypoint)
    (k2 : List Keypoint) : Option MatchPair :=
  match best2 (k2.map (fun q => (q, sqDist kp.desc q.desc))) with
  | (none, _) => none
  | (some (q, dn), sopt) =>
    let accept : Bool :=
      if method == "relative" then
        match sopt with
        | none => true
        | some ds => decide (dn ≤ thresh ^ 2 * ds)
      else decide (dn ≤ thresh ^ 2)
    if accept then some (MatchPair.mk kp.x kp.y q.x q.y) else none

/-- Modelled from the spec: the matcher pairs each keypoint of set1 with
at most one keypoint of set2 (section 4.2), output ordering following the
iteration order of set1. -/
def matchCliSpec (k1 k2 : List Keypoint) (method : String) (thresh : ℚ) :
    List MatchPair :=
  k1.filterMap (fun kp => matchOne method thresh kp k2)

/-- An environment all of whose boundary calls succeed. -/
structure TotalEnv where
  correspondingRoi : Rpc → Rpc → ℤ → ℤ → ℤ → ℤ → ℤ × ℤ × ℤ × ℤ
  siftRoi : String → ℤ → ℤ → ℤ → ℤ → Option ℕ → ℚ → List Keypoint
  matchCli : List Keypoint → List Keypoint → String → ℚ → List MatchPair
  ransac : String → ℕ → ℚ → ℕ → List MatchPair → List MatchPair
  sift_match_thresh : ℚ

/-- The fallible view of a total environment. -/
def TotalEnv.toEnv (T : TotalEnv) : Env :=
  Env.mk
    (fun r1 r2 x y w h => Except.ok (T.correspondingRoi r1 r2 x y w h))
    (fun im x y w h mn t => Except.ok (T.siftRoi im x y w h mn t))
    (fun k1 k2 me th => Except.ok (T.matchCli k1 k2 me th))
    (fun k i th s m => Except.ok (T.ransac k i th s m))
    T.sift_match_thresh

/-- The MatchSet produced by one body of the retry loop at sensitivity `t`
under a total environment: extract on both regions, match with the
relative method at the configured threshold, filter with the fundamental
model, load the result. -/
def iterMatches (T : TotalEnv) (im1 im2 : String)
    (x y w h x2 y2 w2 h2 : ℤ) (t : ℚ) : NpArr :=
  loadtxt (T.ransac "fmn" 1000 (3/10) 7
    (T.matchCli (T.siftRoi im1 x y w h (some 2000) t)
      (T.siftRoi im2 x2 y2 w2 h2 (some 2000) t)
      "relative" T.sift_match_thresh))

/-- The value computed by the retry loop under a total environment. -/
def searchLoopPure (T : TotalEnv) (im1 im2 : String)
    (x y w h x2 y2 w2 h2 : ℤ) : ℕ → ℚ → NpArr → NpArr
  | 0, _, last => last
  | n + 1, t, _ =>
    if 10 < (iterMatches T im1 im2 x y w h x2 y2 w2 h2 t).shape0 then
      iterMatches T im1 im2 x y w h x2 y2 w2 h2 t
    else
      searchLoopPure T im1 im2 x y w h x2 y2 w2 h2 n (t / 2)
        (iterMatches T im1 im2 x y w h x2 y2 w2 h2 t)

/-- Two sample matches. -/
def demoMatches : List MatchPair :=
  [MatchPair.mk 1 2 3 4, MatchPair.mk 5 6 7 8]

/-- Eleven sample matches, more than the early-exit cutoff of ten. -/
def elevenMatches : List MatchPair :=
  [MatchPair.mk 0 0 0 1, MatchPair.mk 1 0 1 1, MatchPair.mk 2 0 2 1,
   MatchPair.mk 3 0 3 1, MatchPair.mk 4 0 4 1, MatchPair.mk 5 0 5 1,
   MatchPair.mk 6 0 6 1, MatchPair.mk 7 0 7 1, MatchPair.mk 8 0 8 1,
   MatchPair.mk 9 0 9 1, MatchPair.mk 10 0 10 1]

/-- A concrete environment: the matcher finds `demoMatches`, the estimator
keeps its input when it has at least four points and returns no inliers
otherwise. -/
def envX : Env :=
  Env.mk
    (fun _ _ _ _ _ _ => Except.ok (9, 9, 3, 3))
    (fun _ _ _ _ _ _ _ => Except.ok [])
    (fun _ _ _ _ => Except.ok demoMatches)
    (fun _ _ _ sample m => Except.ok (if m.length < sample then [] else m))
    1

/-- A concrete environment whose matcher finds no candidate matches and
whose estimator returns no inliers. -/
def envNil : Env :=
  Env.mk
    (fun _ _ _ _ _ _ => Except.ok (9, 9, 3, 3))
    (fun _ _ _ _ _ _ _ => Except.ok [])
    (fun _ _ _ _ => Except.ok [])
    (fun _ _ _ _ _ => Except.ok [])
    1

/-- A concrete environment whose matcher finds eleven matches, kept whole
by the estimator. -/
def envEleven : Env :=
  Env.mk
    (fun _ _ _ _ _ _ => Except.ok (9, 9, 3, 3))
    (fun _ _ _ _ _ _ _ => Except.ok [])
    (fun _ _ _ _ => Except.ok elevenMatches)
    (fun _ _ _ _ m => Except.ok m)
    1

/-- A concrete environment whose detector always fails. -/
def envExtractFail : Env :=
  Env.mk
    (fun _ _ _ _ _ _ => Except.ok (9, 9, 3, 3))
    (fun _ _ _ _ _ _ _ => Except.error (Err.extractionFailed 7))
    (fun _ _ _ _ => Except.ok [])
    (fun _ _ _ _ m => Except.ok m)
    1

/-- A concrete environment whose detector succeeds on the first image and
fails on the second. -/
def envExtractFail2 : Env :=
  Env.mk
    (fun _ _ _ _ _ _ => Except.ok (9, 9, 3, 3))
    (fun im _ _ _ _ _ _ =>
      if im == "imA" then Except.ok [] else Except.error (Err.extractionFailed 3))
    (fun _ _ _ _ => Except.ok [])
    (fun _ _ _ _ m => Except.ok m)
    1

/-- A concrete environment under which every iteration of the retry loop
yields exactly one surviving match. -/
def envOne : Env :=
  Env.mk
    (fun _ _ _ _ _ _ => Except.ok (10, 10, 20, 20))
    (fun _ _ _ _ _ _ _ => Except.ok [])
    (fun _ _ _ _ => Except.ok [MatchPair.mk 1 2 3 4])
    (fun _ _ _ _ m => Except.ok m)
    1

/-- A concrete total environment under which the matcher never finds a
candidate. -/
def totalNilEnv : TotalEnv :=
  TotalEnv.mk
    (fun _ _ _ _ _ _ => (5, 6, 7, 8))
    (fun _ _ _ _ _ _ _ => [])
    (fun _ _ _ _ => [])
    (fun _ _ _ _ m => m)
    1

/-! Helper lemmas. -/

theorem prefixOf_nil {α : Type _} (l : List α) : PrefixOf [] l :=
  ⟨l, rfl⟩

theorem prefixOf_cons {α : Type _} (a : α) {l1 l2 : List α}
    (h : PrefixOf l1 l2) : PrefixOf (a :: l1) (a :: l2) := by
  rcases h with ⟨rest, rfl⟩
  exact ⟨rest, rfl⟩

theorem prefixOf_one {α : Type _} (a : α) (l : List α) :
    PrefixOf [a] (a :: l) :=
  ⟨l, rfl⟩

theorem prefixOf_two {α : Type _} (a b : α) (l : List α) :
    PrefixOf [a, b] (a :: b :: l) :=
  ⟨l, rfl⟩

theorem prefixOf_length {α : Type _} {l1 l2 : List α} (h : PrefixOf l1 l2) :
    l1.length ≤ l2.length := by
  rcases h with ⟨rest, rfl⟩
  simp

theorem prefixOf_filterMap {α β : Type _} (f : α → Option β) {l1 l2 : List α}
    (h : PrefixOf l1 l2) : PrefixOf (l1.filterMap f) (l2.filterMap f) := by
  rcases h with ⟨rest, rfl⟩
  exact ⟨rest.filterMap f, by simp⟩

theorem siftCmds_nil : siftCmds [] = [] := rfl

theorem siftCmds_cons_sift (im : String) (x y w h : ℤ) (mn : Option ℕ) (t : ℚ)
    (l : List Cmd) :
    siftCmds (Cmd.siftRoi im x y w h mn t :: l)
      = Cmd.siftRoi im x y w h mn t :: siftCmds l := rfl

theorem siftCmds_cons_matchCli (me : String) (th : ℚ) (l : List Cmd) :
    siftCmds (Cmd.matchCli me th :: l) = siftCmds l := rfl

theorem siftCmds_cons_ransac (k : String) (i : ℕ) (th : ℚ) (s : ℕ)
    (l : List Cmd) :
    siftCmds (Cmd.ransac k i th s :: l) = siftCmds l := rfl

theorem siftCmds_cons_corr (x y w h : ℤ) (l : List Cmd) :
    siftCmds (Cmd.correspondingRoi x y w h :: l) = siftCmds l := rfl

theorem siftCmds_append (l1 l2 : List Cmd) :
    siftCmds (l1 ++ l2) = siftCmds l1 ++ siftCmds l2 := by
  simp [siftCmds]

theorem andThen_trace_mem (P : Cmd → Prop)
    (s : Except Err (List MatchPair) × List Cmd)
    (f : List MatchPair → Except Err (List MatchPair) × List Cmd)
    (hs : ∀ c ∈ s.2, P c) (hf : ∀ m, ∀ c ∈ (f m).2, P c) :
    ∀ c ∈ (andThen s f).2, P c := by
  rcases s with ⟨r, tr⟩
  cases r with
  | error e => exact fun c hc => hs c hc
  | ok m =>
    intro c hc
    rcases List.mem_append.mp hc with h | h
    · exact hs c h
    · exact hf m c h

theorem ransacPass_trace_ransac (env : Env) (k : String) (i : ℕ) (th : ℚ)
    (s : ℕ) (m : List MatchPair) :
    ∀ c ∈ (ransacPass env k i th s m).2, c.isRansac = true := by
  intro c hc
  simp [ransacPass] at hc
  subst hc
  rfl

theorem ransacFilter_trace_ransac (env : Env) (model : Option PyStr)
    (m0 : List MatchPair) :
    ∀ c ∈ (ransacFilter env model m0).2, c.isRansac = true := by
  unfold ransacFilter
  apply andThen_trace_mem
  · apply andThen_trace_mem
    · apply andThen_trace_mem
      · intro c hc
        simp at hc
      · intro m c hc
        rcases hb : pyEq model "fundamental" with _ | _
        · simp [hb] at hc
        · rw [if_pos hb] at hc
          exact ransacPass_trace_ransac env _ _ _ _ _ c hc
    · intro m c hc
      rcases hb : pyIs model litHomography with _ | _
      · simp [hb] at hc
      · rw [if_pos hb] at hc
        exact ransacPass_trace_ransac env _ _ _ _ _ c hc
  · intro m c hc
    rcases hb : pyIs model litHomFund with _ | _
    · simp [hb] at hc
    · rw [if_pos hb] at hc
      exact andThen_trace_mem _ _ _ (ransacPass_trace_ransac env _ _ _ _ _)
        (fun m2 => ransacPass_trace_ransac env _ _ _ _ _) c hc

theorem cmd_ransac_kinds (c : Cmd) (h : c.isRansac = true) :
    c.isSift = false ∧ c.isCorr = false := by
  cases c <;> simp [Cmd.isSift, Cmd.isCorr, Cmd.isRansac] at h ⊢

theorem keypoints_match_trace_kinds (env : Env) (k1 k2 : List Keypoint)
    (method : String) (th : ℚ) (model : Option PyStr) :
    ∀ c ∈ (keypoints_match env k1 k2 method th model).2,
      c.isSift = false ∧ c.isCorr = false := by
  intro c hc
  rcases hA : env.matchCli k1 k2 method th with e | m0
  · simp only [keypoints_match, hA] at hc
    simp at hc
    subst hc
    exact ⟨rfl, rfl⟩
  · rcases hB : ransacFilter env model m0 with ⟨r, tr⟩
    have htr : ∀ c ∈ tr, c.isRansac = true := by
      have h0 := ransacFilter_trace_ransac env model m0
      rw [hB] at h0
      exact h0
    simp only [keypoints_match, hA, hB] at hc
    cases r with
    | error e =>
      simp at hc
      rcases hc with hc | hc
      · subst hc
        exact ⟨rfl, rfl⟩
      · exact cmd_ransac_kinds c (htr c hc)
    | ok m =>
      simp at hc
      rcases hc with hc | hc
      · subst hc
        exact ⟨rfl, rfl⟩
      · exact cmd_ransac_kinds c (htr c hc)

theorem siftCmds_keypoints_match (env : Env) (k1 k2 : List Keypoint)
    (method : String) (th : ℚ) (model : Option PyStr) :
    siftCmds (keypoints_match env k1 k2 method th model).2 = [] := by
  rw [siftCmds, List.filter_eq_nil_iff]
  intro c hc
  have h := (keypoints_match_trace_kinds env k1 k2 method th model c hc).1
  simp [h]

theorem searchLoop_sift_schedule (env : Env) (im1 im2 : String)
    (x y w h x2 y2 w2 h2 : ℤ) :
    ∀ (n : ℕ) (t : ℚ) (last : NpArr),
      PrefixOf (siftCmds (searchLoop env im1 im2 x y w h x2 y2 w2 h2 n t last).2)
        (backoffSifts im1 im2 x y w h x2 y2 w2 h2 n t) := by
  intro n
  induction n with
  | zero => exact fun t last => prefixOf_nil _
  | succ n ih =>
    intro t last
    rcases h1 : env.siftRoi im1 x y w h (some 2000) t with e | p1
    · simp only [searchLoop, image_keypoints, h1, backoffSifts]
      rw [siftCmds_cons_sift]
      exact prefixOf_one _ _
    · rcases h2 : env.siftRoi im2 x2 y2 w2 h2 (some 2000) t with e | p2
      · simp only [searchLoop, image_keypoints, h1, h2, backoffSifts,
          List.singleton_append]
        rw [siftCmds_cons_sift, siftCmds_cons_sift]
        exact prefixOf_two _ _ _
      · rcases hKM : keypoints_match env p1 p2 "relative" env.sift_match_thresh
            (some litFundamental) with ⟨r3, tr3⟩
        have htr3 : siftCmds tr3 = [] := by
          have h0 := siftCmds_keypoints_match env p1 p2 "relative"
            env.sift_match_thresh (some litFundamental)
          rw [hKM] at h0
          exact h0
        cases r3 with
        | error e =>
          simp only [searchLoop, image_keypoints, h1, h2, hKM, backoffSifts,
            List.singleton_append, List.cons_append, List.nil_append]
          rw [siftCmds_cons_sift, siftCmds_cons_sift, htr3]
          exact prefixOf_two _ _ _
        | ok ms =>
          by_cases hgt : 10 < ms.shape0
          · simp only [searchLoop, image_keypoints, h1, h2, hKM, backoffSifts,
              List.singleton_append, List.cons_append, List.nil_append]
            rw [if_pos hgt]
            rw [siftCmds_cons_sift, siftCmds_cons_sift, htr3]
            exact prefixOf_two _ _ _
          · simp only [searchLoop, image_keypoints, h1, h2, hKM, backoffSifts,
              List.singleton_append, List.cons_append, List.nil_append,
              List.append_assoc]
            rw [if_neg hgt]
            rw [siftCmds_cons_sift, siftCmds_cons_sift, siftCmds_append, htr3,
              List.nil_append]
            exact prefixOf_cons _ (prefixOf_cons _ (ih (t / 2) ms))

theorem range_succ_flatMap {β : Type _} (f : ℕ → List β) (n : ℕ) :
    (List.range (n + 1)).flatMap f
      = f 0 ++ (List.range n).flatMap (fun k => f (k + 1)) := by
  rw [List.range_succ_eq_map]
  simp only [List.flatMap_cons, List.flatMap_map]

theorem filterMap_flatMap {α β γ : Type _} (g : β → Option γ) (l : List α)
    (f : α → List β) :
    (l.flatMap f).filterMap g = l.flatMap (fun a => (f a).filterMap g) := by
  induction l with
  | nil => simp
  | cons a l ih => simp [List.flatMap_cons, ih]

theorem backoffSifts_eq_flatMap (im1 im2 : String) (x y w h x2 y2 w2 h2 : ℤ) :
    ∀ (n : ℕ) (t : ℚ),
      backoffSifts im1 im2 x y w h x2 y2 w2 h2 n t
        = (List.range n).flatMap (fun k =>
            [Cmd.siftRoi im1 x y w h (some 2000) (t / 2 ^ k),
             Cmd.siftRoi im2 x2 y2 w2 h2 (some 2000) (t / 2 ^ k)]) := by
  intro n
  induction n with
  | zero => exact fun t => rfl
  | succ n ih =>
    intro t
    rw [range_succ_flatMap, backoffSifts, ih (t / 2)]
    simp only [pow_zero, div_one]
    have he : (fun k : ℕ =>
        [Cmd.siftRoi im1 x y w h (some 2000) (t / 2 / 2 ^ k),
         Cmd.siftRoi im2 x2 y2 w2 h2 (some 2000) (t / 2 / 2 ^ k)])
        = (fun k : ℕ =>
        [Cmd.siftRoi im1 x y w h (some 2000) (t / 2 ^ (k + 1)),
         Cmd.siftRoi im2 x2 y2 w2 h2 (some 2000) (t / 2 ^ (k + 1))]) := by
      funext k
      rw [div_div, ← pow_succ']
    rw [he]
    rfl

theorem searchLoop_trace_noCorr (env : Env) (im1 im2 : String)
    (x y w h x2 y2 w2 h2 : ℤ) :
    ∀ (n : ℕ) (t : ℚ) (last : NpArr),
      ∀ c ∈ (searchLoop env im1 im2 x y w h x2 y2 w2 h2 n t last).2,
        c.isCorr = false := by
  intro n
  induction n with
  | zero =>
    intro t last c hc
    simp [searchLoop] at hc
  | succ n ih =>
    intro t last c hc
    rcases h1 : env.siftRoi im1 x y w h (some 2000) t with e | p1
    · simp only [searchLoop, image_keypoints, h1] at hc
      simp at hc
      subst hc
      rfl
    · rcases h2 : env.siftRoi im2 x2 y2 w2 h2 (some 2000) t with e | p2
      · simp only [searchLoop, image_keypoints, h1, h2,
          List.singleton_append] at hc
        simp at hc
        rcases hc with hc | hc <;> (subst hc; rfl)
      · rcases hKM : keypoints_match env p1 p2 "relative" env.sift_match_thresh
            (some litFundamental) with ⟨r3, tr3⟩
        have htr3 : ∀ c ∈ tr3, c.isCorr = false := by
          intro c hc3
          have h0 := keypoints_match_trace_kinds env p1 p2 "relative"
            env.sift_match_thresh (some litFundamental)
          rw [hKM] at h0
          exact (h0 c hc3).2
        cases r3 with
        | error e =>
          simp only [searchLoop, image_keypoints, h1, h2, hKM,
            List.cons_append, List.singleton_append, List.nil_append] at hc
          simp at hc
          rcases hc with hc | hc | hc
          · subst hc; rfl
          · subst hc; rfl
          · exact htr3 c hc
        | ok ms =>
          by_cases hgt : 10 < ms.shape0
          · simp only [searchLoop, image_keypoints, h1, h2, hKM,
              List.cons_append, List.singleton_append, List.nil_append] at hc
            rw [if_pos hgt] at hc
            simp at hc
            rcases hc with hc | hc | hc
            · subst hc; rfl
            · subst hc; rfl
            · exact htr3 c hc
          · simp only [searchLoop, image_keypoints, h1, h2, hKM,
              List.cons_append, List.singleton_append, List.nil_append,
              List.append_assoc] at hc
            rw [if_neg hgt] at hc
            simp at hc
            rcases hc with hc | hc | hc | hc
            · subst hc; rfl
            · subst hc; rfl
            · exact htr3 c hc
            · exact ih (t / 2) ms c hc

/-- Claim C1: in every invocation of matches_on_rpc_roi the retry
controller performs at most attempt_max = 6 search iterations (hence at
most 12 detector invocations, two per iteration), and the sensitivity
thresh_dog starts at threshDogInit = 0.0133 and is halved exactly once per
failed iteration: the sensitivities of the detector commands actually
issued form an initial segment of the schedule in which both extractions
of the attempt following k failures use threshDogInit / 2 ^ k. -/
theorem sift_backoff_schedule (env : Env) (im1 im2 : String)
    (rpc1 rpc2 : Rpc) (x y w h : ℤ) :
    PrefixOf (siftThreshes (matches_on_rpc_roi env im1 im2 rpc1 rpc2 x y w h).2)
        ((List.range 6).flatMap (fun k =>
          [threshDogInit / 2 ^ k, threshDogInit / 2 ^ k]))
      ∧ (siftThreshes
          (matches_on_rpc_roi env im1 im2 rpc1 rpc2 x y w h).2).length ≤ 12 := by
  rcases hc : env.correspondingRoi rpc1 rpc2 x y w h with e | q
  · simp only [matches_on_rpc_roi, hc]
    exact ⟨prefixOf_nil _, Nat.zero_le _⟩
  · obtain ⟨x2, y2, w2, h2⟩ := q
    simp only [matches_on_rpc_roi, hc]
    have h2eq : (backoffSifts im1 im2 x y w h x2 y2 w2 h2 6
          threshDogInit).filterMap Cmd.threshOf
        = (List.range 6).flatMap (fun k =>
          [threshDogInit / 2 ^ k, threshDogInit / 2 ^ k]) := by
      rw [backoffSifts_eq_flatMap, filterMap_flatMap]
      rfl
    have hp := prefixOf_filterMap Cmd.threshOf
      (searchLoop_sift_schedule env im1 im2 x y w h x2 y2 w2 h2 6
        threshDogInit (loadtxt []))
    rw [h2eq] at hp
    have hl : ((List.range 6).flatMap (fun k =>
        [threshDogInit / 2 ^ k, threshDogInit / 2 ^ k])).length = 12 := rfl
    exact ⟨hp, le_trans (prefixOf_length hp) (le_of_eq hl)⟩

/-- Claim C2: in any state of the retry loop, as soon as the current
iteration produces a MatchSet of cardinality greater than 10 (for a loaded
match table, shape0 exceeds 10 exactly when the number of matches does),
the loop performs no further iterations: the trace ends with this
iteration and that MatchSet is the value returned. -/
theorem sift_early_exit (env : Env) (im1 im2 : String)
    (x y w h x2 y2 w2 h2 : ℤ) (n : ℕ) (t : ℚ) (last : NpArr)
    (p1 p2 : List Keypoint) (m : NpArr) (tr : List Cmd)
    (hs1 : env.siftRoi im1 x y w h (some 2000) t = Except.ok p1)
    (hs2 : env.siftRoi im2 x2 y2 w2 h2 (some 2000) t = Except.ok p2)
    (hm : keypoints_match env p1 p2 "relative" env.sift_match_thresh
        (some litFundamental) = (Except.ok m, tr))
    (hgt : 10 < m.shape0) :
    searchLoop env im1 im2 x y w h x2 y2 w2 h2 (n + 1) t last
        = (Except.ok m,
           Cmd.siftRoi im1 x y w h (some 2000) t
             :: Cmd.siftRoi im2 x2 y2 w2 h2 (some 2000) t :: tr)
      ∧ ∀ l : List MatchPair, (10 < (loadtxt l).shape0 ↔ 10 < l.length) := by
  constructor
  · simp only [searchLoop, image_keypoints, hs1, hs2, hm, List.cons_append,
      List.singleton_append, List.nil_append]
    rw [if_pos hgt]
  · intro l
    rcases l with _ | ⟨a, l⟩
    · simp [loadtxt, NpArr.shape0]
    · rcases l with _ | ⟨b, l⟩
      · simp only [loadtxt, NpArr.shape0, matchRow, List.length_cons,
          List.length_nil, List.length_singleton]
        decide
      · simp [loadtxt, NpArr.shape0]

theorem sift_early_exit_witness :
    (envEleven.siftRoi "imA" 0 0 8 8 (some 2000) 1 = Except.ok []
        ∧ 10 < (loadtxt elevenMatches).shape0)
      ∧ (searchLoop envEleven "imA" "imB" 0 0 8 8 1 1 8 8 3 1 (loadtxt [])
          = (Except.ok (loadtxt elevenMatches),
             Cmd.siftRoi "imA" 0 0 8 8 (some 2000) 1
               :: Cmd.siftRoi "imB" 1 1 8 8 (some 2000) 1
               :: [Cmd.matchCli "relative" 1, Cmd.ransac "fmn" 1000 (3/10) 7])
          ∧ ∀ l : List MatchPair, (10 < (loadtxt l).shape0 ↔ 10 < l.length)) :=
  ⟨⟨rfl, by decide⟩,
   sift_early_exit envEleven "imA" "imB" 0 0 8 8 1 1 8 8 2 1 (loadtxt [])
     [] [] (loadtxt elevenMatches)
     [Cmd.matchCli "relative" 1, Cmd.ransac "fmn" 1000 (3/10) 7]
     rfl rfl rfl (by decide)⟩

/-- Claim C4: when the projective mapper succeeds, its command is issued
exactly once, at the head of the trace, before the retry loop; the rest of
the trace contains no further mapper invocation, and every detector
invocation of the loop uses the region of the first image or the one fixed
region2 the mapper returned, the latter identical in every iteration while
only the sensitivity varies. -/
theorem sift_roi_mapped_once (env : Env) (im1 im2 : String) (rpc1 rpc2 : Rpc)
    (x y w h x2 y2 w2 h2 : ℤ)
    (hroi : env.correspondingRoi rpc1 rpc2 x y w h
      = Except.ok (x2, y2, w2, h2)) :
    ∃ rest,
      (matches_on_rpc_roi env im1 im2 rpc1 rpc2 x y w h).2
          = Cmd.correspondingRoi x y w h :: rest
        ∧ rest.countP Cmd.isCorr = 0
        ∧ PrefixOf (siftCmds rest)
            ((List.range 6).flatMap (fun k =>
              [Cmd.siftRoi im1 x y w h (some 2000) (threshDogInit / 2 ^ k),
               Cmd.siftRoi im2 x2 y2 w2 h2 (some 2000)
                 (threshDogInit / 2 ^ k)])) := by
  refine ⟨(searchLoop env im1 im2 x y w h x2 y2 w2 h2 6 threshDogInit
    (loadtxt [])).2, ?_, ?_, ?_⟩
  · simp only [matches_on_rpc_roi, hroi]
  · rw [List.countP_eq_zero]
    intro c hc
    have h0 := searchLoop_trace_noCorr env im1 im2 x y w h x2 y2 w2 h2 6
      threshDogInit (loadtxt []) c hc
    simp [h0]
  · have h := searchLoop_sift_schedule env im1 im2 x y w h x2 y2 w2 h2 6
      threshDogInit (loadtxt [])
    rw [backoffSifts_eq_flatMap] at h
    exact h

theorem sift_roi_mapped_once_witness :
    envX.correspondingRoi 0 1 2 3 4 5 = Except.ok (9, 9, 3, 3)
      ∧ ∃ rest, (matches_on_rpc_roi envX "imA" "imB" 0 1 2 3 4 5).2
            = Cmd.correspondingRoi 2 3 4 5 :: rest
          ∧ rest.countP Cmd.isCorr = 0
          ∧ PrefixOf (siftCmds rest)
              ((List.range 6).flatMap (fun k =>
                [Cmd.siftRoi "imA" 2 3 4 5 (some 2000) (threshDogInit / 2 ^ k),
                 Cmd.siftRoi "imB" 9 9 3 3 (some 2000)
                   (threshDogInit / 2 ^ k)])) :=
  ⟨rfl, sift_roi_mapped_once envX "imA" "imB" 0 1 2 3 4 5 9 9 3 3 rfl⟩

/-- Claim C9: when an extraction call fails, the retry loop stops at once:
the error propagates out unmodified, the failed extraction is not retried
at a different sensitivity (the trace ends at the failing command), and no
MatchSet is produced; this holds both when the first extraction of an
iteration fails and when the second one does. -/
theorem sift_extraction_error_propagates (env : Env) (im1 im2 : String)
    (x y w h x2 y2 w2 h2 : ℤ) (n : ℕ) (t : ℚ) (last : NpArr) (e : Err) :
    (env.siftRoi im1 x y w h (some 2000) t = Except.error e →
      searchLoop env im1 im2 x y w h x2 y2 w2 h2 (n + 1) t last
        = (Except.error e, [Cmd.siftRoi im1 x y w h (some 2000) t]))
    ∧ (∀ p1, env.siftRoi im1 x y w h (some 2000) t = Except.ok p1 →
        env.siftRoi im2 x2 y2 w2 h2 (some 2000) t = Except.error e →
        searchLoop env im1 im2 x y w h x2 y2 w2 h2 (n + 1) t last
          = (Except.error e,
             [Cmd.siftRoi im1 x y w h (some 2000) t,
              Cmd.siftRoi im2 x2 y2 w2 h2 (some 2000) t])) := by
  constructor
  · intro h1
    simp only [searchLoop, image_keypoints, h1]
  · intro p1 h1 h2
    simp only [searchLoop, image_keypoints, h1, h2, List.singleton_append]

theorem sift_extraction_error_witness :
    (envExtractFail.siftRoi "imA" 0 0 8 8 (some 2000) 1
        = Except.error (Err.extractionFailed 7)
      ∧ searchLoop envExtractFail "imA" "imB" 0 0 8 8 1 1 8 8 6 1 (loadtxt [])
          = (Except.error (Err.extractionFailed 7),
             [Cmd.siftRoi "imA" 0 0 8 8 (some 2000) 1]))
    ∧ (envExtractFail2.siftRoi "imB" 1 1 8 8 (some 2000) 1
        = Except.error (Err.extractionFailed 3)
      ∧ searchLoop envExtractFail2 "imA" "imB" 0 0 8 8 1 1 8 8 6 1 (loadtxt [])
          = (Except.error (Err.extractionFailed 3),
             [Cmd.siftRoi "imA" 0 0 8 8 (some 2000) 1,
              Cmd.siftRoi "imB" 1 1 8 8 (some 2000) 1])) :=
  ⟨⟨rfl,
    (sift_extraction_error_propagates envExtractFail "imA" "imB" 0 0 8 8
      1 1 8 8 5 1 (loadtxt []) (Err.extractionFailed 7)).1 rfl⟩,
   ⟨rfl,
    (sift_extraction_error_propagates envExtractFail2 "imA" "imB" 0 0 8 8
      1 1 8 8 5 1 (loadtxt []) (Err.extractionFailed 3)).2 [] rfl rfl⟩⟩

theorem rows_loadtxt (m : List MatchPair) :
    (loadtxt m).rows = m.map matchRow := by
  rcases m with _ | ⟨a, m⟩
  · rfl
  · rcases m with _ | ⟨b, m⟩ <;> rfl

/-- Claim C6: with model None the ransac section is skipped entirely: no
robust-estimation pass runs (the trace holds only the matcher command) and
the loaded result holds exactly the candidate matches the matcher
produced, unchanged and in their original order. -/
theorem sift_model_none_identity (env : Env) (k1 k2 : List Keypoint)
    (method : String) (th : ℚ) (m : List MatchPair)
    (hm : env.matchCli k1 k2 method th = Except.ok m) :
    keypoints_match env k1 k2 method th none
        = (Except.ok (loadtxt m), [Cmd.matchCli method th])
      ∧ (loadtxt m).rows = m.map matchRow := by
  constructor
  · simp only [keypoints_match, hm]
    rfl
  · exact rows_loadtxt m

theorem sift_model_none_identity_witness :
    envX.matchCli [] [] "relative" 1 = Except.ok demoMatches
      ∧ (keypoints_match envX [] [] "relative" 1 none
          = (Except.ok (loadtxt demoMatches), [Cmd.matchCli "relative" 1])
        ∧ (loadtxt demoMatches).rows = demoMatches.map matchRow) :=
  ⟨rfl, sift_model_none_identity envX [] [] "relative" 1 demoMatches rfl⟩

theorem ransacFilter_fundamental (env : Env) (m0 : List MatchPair) :
    ransacFilter env (some litFundamental) m0
      = (env.ransac "fmn" 1000 (3/10) 7 m0,
         [Cmd.ransac "fmn" 1000 (3/10) 7]) := by
  rcases hr : env.ransac "fmn" 1000 (3/10) 7 m0 with e | m1 <;>
    simp [ransacFilter, andThen, ransacPass, pyEq, pyIs, litFundamental,
      litHomography, litHomFund, hr]

theorem ransacFilter_homFund (env : Env) (m0 m1 m2 : List MatchPair)
    (hr1 : env.ransac "hom" 1000 2 4 m0 = Except.ok m1)
    (hr2 : env.ransac "fmn" 1000 (2/10) 7 m1 = Except.ok m2) :
    ransacFilter env (some litHomFund) m0
      = (Except.ok m2,
         [Cmd.ransac "hom" 1000 2 4, Cmd.ransac "fmn" 1000 (2/10) 7]) := by
  simp [ransacFilter, andThen, ransacPass, pyEq, pyIs, litFundamental,
    litHomography, litHomFund, hr1, hr2]

/-- Claim C7: with the fundamental literal the filter runs exactly one
epipolar pass, with inlier threshold 0.3, minimal sample size 7 and
iteration budget 1000 (whatever the estimator outcome), and on success
returns the loaded survivors of that pass; with the hom_fund literal it
first runs a homography pass with the looser threshold 2 (sample size 4,
budget 1000) and then a fundamental pass with threshold 0.2 (sample size
7, budget 1000) on the survivors of the first pass. -/
theorem sift_model_params (env : Env) (k1 k2 : List Keypoint)
    (method : String) (th : ℚ) (m0 : List MatchPair)
    (hm : env.matchCli k1 k2 method th = Except.ok m0) :
    (((keypoints_match env k1 k2 method th (some litFundamental)).2.filter
          Cmd.isRansac = [Cmd.ransac "fmn" 1000 (3/10) 7])
      ∧ ∀ m1, env.ransac "fmn" 1000 (3/10) 7 m0 = Except.ok m1 →
          (keypoints_match env k1 k2 method th (some litFundamental)).1
            = Except.ok (loadtxt m1))
    ∧ ∀ m1 m2, env.ransac "hom" 1000 2 4 m0 = Except.ok m1 →
        env.ransac "fmn" 1000 (2/10) 7 m1 = Except.ok m2 →
        keypoints_match env k1 k2 method th (some litHomFund)
          = (Except.ok (loadtxt m2),
             [Cmd.matchCli method th, Cmd.ransac "hom" 1000 2 4,
              Cmd.ransac "fmn" 1000 (2/10) 7]) := by
  have hRF := ransacFilter_fundamental env m0
  refine ⟨⟨?_, ?_⟩, ?_⟩
  · rcases hr : env.ransac "fmn" 1000 (3/10) 7 m0 with e | m1
    · rw [hr] at hRF
      simp only [keypoints_match, hm, hRF]
      rfl
    · rw [hr] at hRF
      simp only [keypoints_match, hm, hRF]
      rfl
  · intro m1 hr
    rw [hr] at hRF
    simp only [keypoints_match, hm, hRF]
  · intro m1 m2 hr1 hr2
    have hRF2 := ransacFilter_homFund env m0 m1 m2 hr1 hr2
    simp only [keypoints_match, hm, hRF2]

theorem sift_model_params_witness :
    envX.matchCli [] [] "relative" 1 = Except.ok demoMatches
      ∧ ((keypoints_match envX [] [] "relative" 1
            (some litFundamental)).2.filter Cmd.isRansac
          = [Cmd.ransac "fmn" 1000 (3/10) 7])
      ∧ ((keypoints_match envX [] [] "relative" 1
            (some litFundamental)).1 = Except.ok (loadtxt []))
      ∧ keypoints_match envX [] [] "relative" 1 (some litHomFund)
          = (Except.ok (loadtxt []),
             [Cmd.matchCli "relative" 1, Cmd.ransac "hom" 1000 2 4,
              Cmd.ransac "fmn" 1000 (2/10) 7]) :=
  ⟨rfl,
   (sift_model_params envX [] [] "relative" 1 demoMatches rfl).1.1,
   (sift_model_params envX [] [] "relative" 1 demoMatches rfl).1.2 [] rfl,
   (sift_model_params envX [] [] "relative" 1 demoMatches rfl).2 [] [] rfl rfl⟩

/-- Claim C8: line 68 compares the model argument to the homography
literal with the Python operator is (object identity), not equality: for a
model string that equals homography by value but is a distinct object (any
string built at run time), no robust-estimation pass runs at all and the
raw matcher output is returned, while for the interned literal itself
exactly one planar pass with inlier threshold 1, minimal sample size 4 and
iteration budget 1000 runs.  The docstring (model imposed by RANSAC when
searching the set of inliers) and the value comparison used for
fundamental on line 66 show equality was intended, so this is a slip in
the code, not in the claim. -/
theorem sift_homography_identity_check :
    strHomographyRuntime.val = "homography"
      ∧ (keypoints_match envX [] [] "relative" 1
          (some strHomographyRuntime)).2.countP Cmd.isRansac = 0
      ∧ (keypoints_match envX [] [] "relative" 1
          (some strHomographyRuntime)).1 = Except.ok (loadtxt demoMatches)
      ∧ (keypoints_match envX [] [] "relative" 1
          (some litHomography)).2.filter Cmd.isRansac
          = [Cmd.ransac "hom" 1000 1 4] :=
  ⟨rfl, by decide, rfl, rfl⟩

/-- Claim C10: the docstrings of keypoints_match and matches_on_rpc_roi
promise a 2-D array whose rows are matches ordered x1 y1 x2 y2, but
np.loadtxt squeezes its result: a run whose final iteration leaves exactly
one surviving match returns the 1-D array of the four coordinates, and a
run with no survivors returns an empty 1-D array, contradicting the
claimed shape exactly in the zero-match and one-match cases. -/
theorem sift_single_match_returns_1d :
    (matches_on_rpc_roi envOne "imA" "imB" 0 1 7 9 64 64).1
        = Except.ok (NpArr.oneD [1, 2, 3, 4])
      ∧ (NpArr.oneD [1, 2, 3, 4]).ndim = 1
      ∧ (loadtxt [MatchPair.mk 1 2 3 4]).ndim ≠ 2
      ∧ (loadtxt []).ndim ≠ 2 :=
  ⟨rfl, rfl, by decide, by decide⟩

/-- Claim C5 counterexample: applying the filter (here with the
fundamental family) to an empty candidate MatchSet still invokes the
robust estimator: a ransac command appears in the trace even though the
match file is empty, refuting the claim that the estimator is not
invoked on empty input. -/
theorem sift_empty_filter_invokes_estimator :
    (keypoints_match envNil [] [] "relative" 1
      (some litFundamental)).2.countP Cmd.isRansac ≠ 0 := by
  decide

theorem ransacFilter_empty_fst (env : Env)
    (hr : ∀ kind iters th sample,
      env.ransac kind iters th sample [] = Except.ok [])
    (model : Option PyStr) :
    (ransacFilter env model []).1 = Except.ok [] := by
  rcases hb1 : pyEq model "fundamental" with _ | _ <;>
    rcases hb2 : pyIs model litHomography with _ | _ <;>
      rcases hb3 : pyIs model litHomFund with _ | _ <;>
        simp [ransacFilter, andThen, ransacPass, hb1, hb2, hb3, hr]

/-- Claim C5 amended: applying the robust filter to an empty candidate
MatchSet returns an empty MatchSet, but the selected estimator passes are
still invoked on the empty input; the empty result relies on the
estimator boundary contract that an input below the minimal sample size
yields no inliers.  Matching an empty keypoint set against any keypoint
set returns an empty MatchSet (spec-modelled matcher). -/
theorem sift_empty_input_amended (env : Env)
    (hr : ∀ kind iters th sample,
      env.ransac kind iters th sample [] = Except.ok [])
    (k1 k2 : List Keypoint) (method : String) (th : ℚ) (model : Option PyStr)
    (hm : env.matchCli k1 k2 method th = Except.ok []) :
    (keypoints_match env k1 k2 method th model).1 = Except.ok (loadtxt [])
      ∧ ∀ (ks : List Keypoint) (method2 : String) (t2 : ℚ),
          matchCliSpec [] ks method2 t2 = [] := by
  constructor
  · rcases hRF : ransacFilter env model [] with ⟨r, tr⟩
    have hr0 := ransacFilter_empty_fst env hr model
    rw [hRF] at hr0
    simp only at hr0
    subst hr0
    simp only [keypoints_match, hm, hRF]
  · intro ks method2 t2
    rfl

theorem sift_empty_input_amended_witness :
    ((∀ kind iters th sample, envNil.ransac kind iters th sample []
        = Except.ok []) ∧ envNil.matchCli [] [] "relative" 1 = Except.ok [])
      ∧ ((keypoints_match envNil [] [] "relative" 1 (some litHomFund)).1
            = Except.ok (loadtxt [])
        ∧ ∀ (ks : List Keypoint) (method2 : String) (t2 : ℚ),
            matchCliSpec [] ks method2 t2 = []) :=
  ⟨⟨fun _ _ _ _ => rfl, rfl⟩,
   sift_empty_input_amended envNil (fun _ _ _ _ => rfl) [] [] "relative" 1
     (some litHomFund) rfl⟩

theorem keypoints_match_total (T : TotalEnv) (k1 k2 : List Keypoint)
    (method : String) (th : ℚ) :
    keypoints_match (TotalEnv.toEnv T) k1 k2 method th (some litFundamental)
      = (Except.ok (loadtxt (T.ransac "fmn" 1000 (3/10) 7
          (T.matchCli k1 k2 method th))),
         [Cmd.matchCli method th, Cmd.ransac "fmn" 1000 (3/10) 7]) := rfl

theorem toEnv_siftRoi (T : TotalEnv) (im : String) (x y w h : ℤ)
    (mn : Option ℕ) (t : ℚ) :
    (TotalEnv.toEnv T).siftRoi im x y w h mn t
      = Except.ok (T.siftRoi im x y w h mn t) := rfl

theorem toEnv_thresh (T : TotalEnv) :
    (TotalEnv.toEnv T).sift_match_thresh = T.sift_match_thresh := rfl

theorem searchLoop_total (T : TotalEnv) (im1 im2 : String)
    (x y w h x2 y2 w2 h2 : ℤ) :
    ∀ (n : ℕ) (t : ℚ) (last : NpArr),
      (searchLoop (TotalEnv.toEnv T) im1 im2 x y w h x2 y2 w2 h2 n t last).1
        = Except.ok (searchLoopPure T im1 im2 x y w h x2 y2 w2 h2 n t last) := by
  intro n
  induction n with
  | zero => intro t last; rfl
  | succ n ih =>
    intro t last
    simp only [searchLoop, searchLoopPure, image_keypoints, toEnv_siftRoi,
      toEnv_thresh, keypoints_match_total, iterMatches]
    by_cases hgt : 10 < (NpArr.shape0 (loadtxt (T.ransac "fmn" 1000 (3/10) 7
        (T.matchCli (T.siftRoi im1 x y w h (some 2000) t)
          (T.siftRoi im2 x2 y2 w2 h2 (some 2000) t)
          "relative" T.sift_match_thresh))))
    · rw [if_pos hgt, if_pos hgt]
    · rw [if_neg hgt, if_neg hgt]
      exact ih (t / 2) _

theorem searchLoopPure_exhaust (T : TotalEnv) (im1 im2 : String)
    (x y w h x2 y2 w2 h2 : ℤ) :
    ∀ (n : ℕ) (t : ℚ) (last : NpArr),
      (∀ j, j ≤ n → (iterMatches T im1 im2 x y w h x2 y2 w2 h2
          (t / 2 ^ j)).shape0 ≤ 10) →
      searchLoopPure T im1 im2 x y w h x2 y2 w2 h2 (n + 1) t last
        = iterMatches T im1 im2 x y w h x2 y2 w2 h2 (t / 2 ^ n) := by
  intro n
  induction n with
  | zero =>
    intro t last hfail
    have h0 := hfail 0 le_rfl
    rw [pow_zero, div_one] at h0
    simp only [searchLoopPure]
    rw [if_neg (Nat.not_lt.mpr h0)]
    rw [pow_zero, div_one]
  | succ n ih =>
    intro t last hfail
    have h0 := hfail 0 (Nat.zero_le _)
    rw [pow_zero, div_one] at h0
    simp only [searchLoopPure]
    rw [if_neg (Nat.not_lt.mpr h0)]
    have hfail2 : ∀ j, j ≤ n → (iterMatches T im1 im2 x y w h x2 y2 w2 h2
        (t / 2 / 2 ^ j)).shape0 ≤ 10 := by
      intro j hj
      have hthis := hfail (j + 1) (Nat.succ_le_succ hj)
      rw [div_div, ← pow_succ']
      exact hthis
    have hI := ih (t / 2) (iterMatches T im1 im2 x y w h x2 y2 w2 h2 t) hfail2
    rw [div_div, ← pow_succ'] at hI
    exact hI

/-- Claim C3: when all six iterations fail to reach the match-count
target, matches_on_rpc_roi returns the MatchSet obtained by the last
iteration (the one run at sensitivity threshDogInit divided by 2 to the
5th, possibly too small or empty) as ordinary data, an Except.ok value:
no exception arises from the insufficient-matches condition when every
boundary call succeeds. -/
theorem sift_exhausted_returns_data (T : TotalEnv) (im1 im2 : String)
    (rpc1 rpc2 : Rpc) (x y w h x2 y2 w2 h2 : ℤ)
    (hroi : T.correspondingRoi rpc1 rpc2 x y w h = (x2, y2, w2, h2))
    (hfail : ∀ j, j ≤ 5 → (iterMatches T im1 im2 x y w h x2 y2 w2 h2
        (threshDogInit / 2 ^ j)).shape0 ≤ 10) :
    (matches_on_rpc_roi (TotalEnv.toEnv T) im1 im2 rpc1 rpc2 x y w h).1
      = Except.ok (iterMatches T im1 im2 x y w h x2 y2 w2 h2
          (threshDogInit / 2 ^ 5)) := by
  have hcor : (TotalEnv.toEnv T).correspondingRoi rpc1 rpc2 x y w h
      = Except.ok (x2, y2, w2, h2) := by
    simp [TotalEnv.toEnv, hroi]
  simp only [matches_on_rpc_roi, hcor]
  rw [searchLoop_total]
  exact congrArg Except.ok
    (searchLoopPure_exhaust T im1 im2 x y w h x2 y2 w2 h2 5 threshDogInit
      (loadtxt []) hfail)

theorem sift_exhausted_returns_data_witness :
    (totalNilEnv.correspondingRoi 0 1 2 3 4 5 = (5, 6, 7, 8)
      ∧ ∀ j, j ≤ 5 → (iterMatches totalNilEnv "imA" "imB" 2 3 4 5 5 6 7 8
          (threshDogInit / 2 ^ j)).shape0 ≤ 10)
    ∧ (matches_on_rpc_roi (TotalEnv.toEnv totalNilEnv)
        "imA" "imB" 0 1 2 3 4 5).1
        = Except.ok (iterMatches totalNilEnv "imA" "imB" 2 3 4 5 5 6 7 8
            (threshDogInit / 2 ^ 5)) :=
  ⟨⟨rfl, fun _ _ => Nat.zero_le 10⟩,
   sift_exhausted_returns_data totalNilEnv "imA" "imB" 0 1 2 3 4 5 5 6 7 8
     rfl (fun _ _ => Nat.zero_le 10)⟩
